import Mathlib

/-!
Verification of the tuic-installer deployment script (`tunic.py`).

The development shallowly embeds the data model and the operations of the
script: dataclasses become structures, `__post_init__` normalisation becomes
an explicit function applied by every constructor path, stateful code
(the lazy `Project.server_port` accessor, the in-place mutation performed by
`NekoRayConfig.from_server`, the install workflow) becomes explicit state
passing, and the effectful environment (socket probes, DNS, the certbot
subprocess, the random source) is passed in as explicit parameters.
-/

namespace Tunic

/-- Hex digit characters, as produced by Python `%x` formatting. -/
def hexDigitChars : List Char := "0123456789abcdef".data

/-- The hex digit for a nibble, as in Python hex formatting of a byte. -/
def hexDigit (n : Nat) : Char := hexDigitChars.getD (n % 16) '0'

/-- True when the character is a lowercase hex digit. -/
def isHexChar (c : Char) : Bool := hexDigitChars.contains c

/-- Two hex characters of one byte, high nibble first (Python `bytes.hex`). -/
def byteHexChars (b : Nat) : List Char := [hexDigit (b / 16), hexDigit (b % 16)]

/-- Hex encoding of a byte string, as `secrets.token_hex` produces. -/
def hexChars : List Nat → List Char
  | [] => []
  | b :: bs => byteHexChars b ++ hexChars bs

/-- Character list of `str(uuid.UUID(bytes=..., version=4))`: the version
nibble of byte 6 is forced to 4 and the variant bits of byte 8 to `10`,
then the 16 bytes are hex formatted in 8-4-4-4-12 groups.
`b6 % 16 + 64` is `(b6 AND 0x0f) OR 0x40`; `b8 % 64 + 128` is
`(b8 AND 0x3f) OR 0x80`. Inputs that are not 16 bytes yield `[]`. -/
def uuid4Chars (bs : List Nat) : List Char :=
  match bs with
  | [b0, b1, b2, b3, b4, b5, b6, b7, b8, b9, b10, b11, b12, b13, b14, b15] =>
      hexChars [b0, b1, b2, b3] ++ ['-'] ++ hexChars [b4, b5] ++ ['-'] ++
      hexChars [b6 % 16 + 64, b7] ++ ['-'] ++ hexChars [b8 % 64 + 128, b9] ++ ['-'] ++
      hexChars [b10, b11, b12, b13, b14, b15]
  | _ => []

/-- Decides whether a string has the shape of a version-4 UUID string:
8-4-4-4-12 lowercase hex groups separated by dashes, with the version
character fixed to `4` and the variant character in `8/9/a/b`. -/
def isUuidShaped (s : String) : Bool :=
  match s.data with
  | a0 :: a1 :: a2 :: a3 :: a4 :: a5 :: a6 :: a7 :: d1 :: b1 :: b2 :: b3 :: b4 :: d2 ::
    v :: c1 :: c2 :: c3 :: d3 :: r :: e1 :: e2 :: e3 :: d4 ::
    f1 :: f2 :: f3 :: f4 :: f5 :: f6 :: f7 :: f8 :: f9 :: f10 :: f11 :: f12 :: [] =>
      [a0, a1, a2, a3, a4, a5, a6, a7, b1, b2, b3, b4, c1, c2, c3, e1, e2, e3,
       f1, f2, f3, f4, f5, f6, f7, f8, f9, f10, f11, f12].all isHexChar &&
      d1 == '-' && d2 == '-' && d3 == '-' && d4 == '-' &&
      v == '4' && (r == '8' || r == '9' || r == 'a' || r == 'b')
  | _ => false

/-- Credential record: dataclass `User` of `tunic.py`. -/
structure User where
  username : String
  password : String
deriving DecidableEq, Repr

/-- Model of `User.gen`: `username = str(uuid4())` and
`password = secrets.token_hex()[:16]`; the random source is passed in as the
16 UUID bytes and the 32 token bytes that the library draws. -/
def User.gen (uuidBytes tokenBytes : List Nat) : User :=
  { username := String.mk (uuid4Chars uuidBytes)
    password := String.mk ((hexChars tokenBytes).take 16) }

/-- Certificate paths: dataclass `Certificate` of `tunic.py`; `fullchain`
property. -/
def Certificate.fullchain (domain : String) : String :=
  "/etc/letsencrypt/live/" ++ domain ++ "/fullchain.pem"

/-- Certificate private-key path: `Certificate.privkey` property. -/
def Certificate.privkey (domain : String) : String :=
  "/etc/letsencrypt/live/" ++ domain ++ "/privkey.pem"

/-- Server runtime configuration: dataclass `ServerConfig` of `tunic.py`.
The `users` dict is modelled as an association list; Python `None` for
`alpn` and the empty list are both falsy and are normalised identically by
`__post_init__`, so `alpn` is modelled as a plain list with `[]` covering
both. Field defaults mirror the dataclass defaults. -/
structure ServerConfig where
  server : String
  users : List (String × String)
  certificate : String
  private_key : String
  congestion_control : String := "bbr"
  alpn : List String := []
  udp_relay_ipv6 : Bool := true
  zero_rtt_handshake : Bool := true
  dual_stack : Option Bool := none
  auth_timeout : String := "3s"
  task_negotiation_timeout : String := "3s"
  max_idle_time : String := "10s"
  max_external_packet_size : Int := 1500
  send_window : Int := 16777216
  receive_window : Int := 8388608
  gc_interval : String := "3s"
  gc_lifetime : String := "15s"
  log_level : String := "warn"
deriving DecidableEq, Repr

/-- Normalisation performed by `ServerConfig.__post_init__`:
`self.server = self.server or "[::]:443"` and
`self.alpn = self.alpn or ["h3", "spdy/3.1"]`. Every `ServerConfig` the
script builds goes through this function, since Python dataclasses run
`__post_init__` on every construction. -/
def ServerConfig.post_init (c : ServerConfig) : ServerConfig :=
  { c with
    server := if c.server = "" then "[::]:443" else c.server
    alpn := if c.alpn = [] then ["h3", "spdy/3.1"] else c.alpn }

/-- Model of `ServerConfig.from_automation`: normalises the user argument to
a list, builds the users map, sets `server = f"[::]:{server_port}"` and the
certificate paths, leaving every tunable at its default; `__post_init__`
then runs on the constructed instance. -/
def ServerConfig.from_automation (users : List User) (path_fullchain path_privkey : String)
    (server_port : Int) : ServerConfig :=
  ServerConfig.post_init
    { server := "[::]:" ++ toString server_port
      users := users.map fun u => (u.username, u.password)
      certificate := path_fullchain
      private_key := path_privkey }

/-- Client relay settings: dataclass `ClientRelay` of `tunic.py`. The
`certificates` field is typed `List[str] | None` with default `[]` and is
forced to `None` by `__post_init__`. -/
structure ClientRelay where
  server : String
  uuid : String
  password : String
  ip : Option String := none
  certificates : Option (List String) := some []
  udp_relay_mode : String := "quic"
  congestion_control : String := "bbr"
  alpn : List String := []
  zero_rtt_handshake : Bool := true
  send_window : Int := 16777216
  receive_window : Int := 8388608
  gc_interval : String := "3s"
  gc_lifetime : String := "15s"
deriving DecidableEq, Repr

/-- Normalisation performed by `ClientRelay.__post_init__`:
`self.alpn = self.alpn or ["h3", "spdy/3.1"]` and `self.certificates = None`. -/
def ClientRelay.post_init (r : ClientRelay) : ClientRelay :=
  { r with
    alpn := if r.alpn = [] then ["h3", "spdy/3.1"] else r.alpn
    certificates := none }

/-- Model of `ClientRelay.copy_from_server`: builds the client view with
`server = f"{domain}:{server_port}"`, the credential taken from `user`, and
`alpn`, `congestion_control`, `send_window`, `receive_window`,
`gc_interval`, `gc_lifetime` taken from the server config; all remaining
fields (including `zero_rtt_handshake`) keep their dataclass defaults.
`__post_init__` runs on the constructed instance. -/
def ClientRelay.copy_from_server (domain : String) (user : User) (sc : ServerConfig)
    (server_port : Int) : ClientRelay :=
  ClientRelay.post_init
    { server := domain ++ ":" ++ toString server_port
      uuid := user.username
      password := user.password
      alpn := sc.alpn
      congestion_control := sc.congestion_control
      send_window := sc.send_window
      receive_window := sc.receive_window
      gc_interval := sc.gc_interval
      gc_lifetime := sc.gc_lifetime }

/-- Local listener settings: dataclass `ClientLocal` of `tunic.py`. -/
structure ClientLocal where
  server : String
  username : Option String := none
  password : Option String := none
  dual_stack : Option Bool := none
  max_packet_size : Option Int := some 1500
deriving DecidableEq, Repr

/-- NekoRay artifact: dataclass `NekoRayConfig`. The Python code serialises
`relay.__dict__` and `local.__dict__` with `None`-valued keys removed; the
records are kept here with their `Option` fields, the `None` filtering being
part of JSON serialisation only. The field is named `local_` because `local`
is reserved in Lean. -/
structure NekoRayConfig where
  relay : ClientRelay
  local_ : ClientLocal
  log_level : String := "warn"
deriving DecidableEq, Repr

/-- Model of `NekoRayConfig.from_server`. The source mutates the `relay`
argument in place (`relay.server = f"{server_addr}:{server_port}"`, and
`relay.ip = server_ip` when `server_ip is not None`); the mutation is made
explicit by returning the updated relay alongside the artifact. -/
def NekoRayConfig.from_server (relay : ClientRelay) (server_addr : String)
    (server_port : Int) (server_ip : Option String) : NekoRayConfig × ClientRelay :=
  let local_ : ClientLocal := { server := "127.0.0.1:%socks_port%" }
  let relay := { relay with server := server_addr ++ ":" ++ toString server_port }
  let relay :=
    match server_ip with
    | some ip => { relay with ip := some ip }
    | none => relay
  ({ relay := relay, local_ := local_, log_level := "warn" }, relay)

/-- Structured content of the Clash.Meta proxy entry: exactly the values
that `ClashMetaConfig.from_server` interpolates into its inline-mapping
YAML string (the `proxy` f-string), in source order. The source then joins
the base policy template with the rendered proxy and a one-member selector
group; the artifact is modelled as this record since the string is built by
direct interpolation of these fields. -/
structure ClashMetaProxy where
  name : String
  server : String
  port : Int
  uuid : String
  password : String
  ip : String
  udp_relay_mode : String
  congestion_controller : String
  alpn : List String
  reduce_rtt : Bool
  max_udp_relay_packet_size : Int
deriving DecidableEq, Repr

/-- Clash.Meta artifact: the proxy entry plus the selector group's proxy
name list (`proxies: ["tunic"]`). -/
structure ClashMetaConfig where
  proxy : ClashMetaProxy
  group_proxies : List String
deriving DecidableEq, Repr

/-- Model of `ClashMetaConfig.from_server`: `name = "tunic"`, the server
and port taken from the arguments, credential and transport fields read
from the (unmutated) relay, `ip = server_ip or ''`. -/
def ClashMetaConfig.from_server (relay : ClientRelay) (server_addr : String)
    (server_port : Int) (server_ip : Option String) : ClashMetaConfig :=
  { proxy :=
      { name := "tunic"
        server := server_addr
        port := server_port
        uuid := relay.uuid
        password := relay.password
        ip := server_ip.getD ""
        udp_relay_mode := relay.udp_relay_mode
        congestion_controller := relay.congestion_control
        alpn := relay.alpn
        reduce_rtt := relay.zero_rtt_handshake
        max_udp_relay_packet_size := 1464 }
    group_proxies := ["tunic"] }

/-- Embedded TLS block of the sing-box outbound (`tls` dict). -/
structure SingBoxTls where
  enabled : Bool
  disable_sni : Bool
  server_name : String
  insecure : Bool
  alpn : List String
deriving DecidableEq, Repr

/-- The sing-box outbound artifact: dataclass `SingBoxConfig`. -/
structure SingBoxConfig where
  type : String
  tag : String
  server : String
  server_port : Int
  uuid : String
  password : String
  congestion_control : String := "bbr"
  udp_relay_mode : String := "quic"
  zero_rtt_handshake : Bool := true
  tls : SingBoxTls
deriving DecidableEq, Repr

/-- Model of `SingBoxConfig.from_server`: `server = server_ip or ""` (the
IP, not the domain), the domain goes into `tls.server_name`, and credential
and transport fields are read from the (unmutated) relay. -/
def SingBoxConfig.from_server (relay : ClientRelay) (server_addr : String)
    (server_port : Int) (server_ip : Option String) : SingBoxConfig :=
  { type := "tuic"
    tag := "tuic-out"
    server := server_ip.getD ""
    server_port := server_port
    uuid := relay.uuid
    password := relay.password
    congestion_control := relay.congestion_control
    udp_relay_mode := relay.udp_relay_mode
    zero_rtt_handshake := relay.zero_rtt_handshake
    tls :=
      { enabled := true
        disable_sni := false
        server_name := server_addr
        insecure := false
        alpn := relay.alpn } }

/-- Mutable state of the singleton `Project`: the cached public IP and the
cached listening port (`_server_ip`, `_server_port`), with the class-level
initial values. -/
structure ProjectState where
  _server_ip : String := ""
  _server_port : Int := -1
deriving DecidableEq, Repr

/-- Candidate ports `list(range(49152, 59152))` drawn by the `server_port`
accessor, built by counting up from the start so that the head is available
without materialising the whole list. -/
def rangeList (a : Int) : Nat → List Int
  | 0 => []
  | n + 1 => a :: rangeList (a + 1) n

/-- The concrete candidate pool `list(range(49152, 59152))`. -/
def candidatePorts : List Int := rangeList 49152 10000

/-- Model of the `Project.server_port` property getter. If `_server_port`
is still `-1` it walks the shuffled candidate list and caches the first
port whose UDP bind probe reports it free; if every candidate is in use the
loop falls through and the sentinel `-1` is returned unchanged. The shuffle
outcome is the `randPorts` argument, and the bind probe
(`Project.is_port_in_used` with `proto="udp"`) is the `inUse` argument.
Returns the port together with the updated state. -/
def Project.server_port_get (st : ProjectState) (randPorts : List Int)
    (inUse : Int → Bool) : Int × ProjectState :=
  if st._server_port < 0 then
    match randPorts.find? (fun p => !inUse p) with
    | some p => (p, { st with _server_port := p })
    | none => (st._server_port, st)
  else (st._server_port, st)

/-- The shared (server, port, credential, transport) tuple that all three
artifacts must encode: server peer as `HOST:PORT`, the credential pair, the
congestion-control algorithm and the ALPN list. -/
structure SharedFields where
  server_peer : String
  uuid : String
  password : String
  congestion_control : String
  alpn : List String
deriving DecidableEq, Repr

/-- Shared-field view of a NekoRay artifact: read from its relay object. -/
def NekoRayConfig.sharedView (c : NekoRayConfig) : SharedFields :=
  { server_peer := c.relay.server
    uuid := c.relay.uuid
    password := c.relay.password
    congestion_control := c.relay.congestion_control
    alpn := c.relay.alpn }

/-- Shared-field view of a Clash.Meta artifact: `server` and `port` joined
back into a peer string, credential and transport fields read from the
proxy entry. -/
def ClashMetaConfig.sharedView (c : ClashMetaConfig) : SharedFields :=
  { server_peer := c.proxy.server ++ ":" ++ toString c.proxy.port
    uuid := c.proxy.uuid
    password := c.proxy.password
    congestion_control := c.proxy.congestion_controller
    alpn := c.proxy.alpn }

/-- Shared-field view of a sing-box artifact: the host is `tls.server_name`
(the `server` field carries the IP override), the port is `server_port`,
and ALPN lives in the TLS block. -/
def SingBoxConfig.sharedView (c : SingBoxConfig) : SharedFields :=
  { server_peer := c.tls.server_name ++ ":" ++ toString c.server_port
    uuid := c.uuid
    password := c.password
    congestion_control := c.congestion_control
    alpn := c.tls.alpn }

/-- The three client artifacts written by `Template.gen_clients`. -/
structure GeneratedClients where
  nekoray : NekoRayConfig
  meta : ClashMetaConfig
  singbox : SingBoxConfig
deriving DecidableEq, Repr

/-- Model of `Template.gen_clients`: reads `project.server_ip` and
`project.server_port` (the latter is the caching accessor and may allocate),
derives the common `ClientRelay` via `copy_from_server`, then feeds it to
the three exporters in source order. `NekoRayConfig.from_server` mutates the
relay, so the relay it returns is the one the Clash.Meta and sing-box
exporters observe. The project passes its `server_ip` string (never `None`)
for the optional `server_ip` parameter. -/
def Template.gen_clients (st : ProjectState) (randPorts : List Int) (inUse : Int → Bool)
    (server_addr : String) (user : User) (server_config : ServerConfig) :
    GeneratedClients × ProjectState :=
  let server_ip := st._server_ip
  let spr := Project.server_port_get st randPorts inUse
  let server_port := spr.1
  let st := spr.2
  let relay := ClientRelay.copy_from_server server_addr user server_config server_port
  let nek := NekoRayConfig.from_server relay server_addr server_port (some server_ip)
  let nekoray := nek.1
  let relay := nek.2
  let meta := ClashMetaConfig.from_server relay server_addr server_port (some server_ip)
  let singbox := SingBoxConfig.from_server relay server_addr server_port (some server_ip)
  ({ nekoray := nekoray, meta := meta, singbox := singbox }, st)

/-- Observable side effects of the install workflow, in the order the
script performs them. `probe` is the local socket bind test of
`Project.is_port_in_used`; `dnsResolve` and `fetchPublicIp` are the network
calls of `_validate_domain`; `certIssuance` is the `certbot certonly`
subprocess invocation; `portAllocated` records the accessor caching a port;
`fileWrite` covers each file the workflow persists. -/
inductive Event where
  | probe (port : Int) (proto : String)
  | dnsResolve (domain : String)
  | fetchPublicIp
  | certPreHook
  | certIssuance
  | certPostHook
  | makeDirs
  | portAllocated (port : Int)
  | fileWrite (path : String)
  | download
  | serviceStart
deriving DecidableEq, Repr

/-- How a modelled code path terminates: returning normally, `sys.exit()`
(`fatalExit`), an uncaught Python exception propagating (`exception`), or
the install workflow's two terminal branches. -/
inductive Outcome where
  | normal
  | fatalExit
  | exception
  | completed
  | startFailed
deriving DecidableEq, Repr

/-- Result of one `CertBot.run` invocation: the events it performed, how
many times the post-hook body executed, whether the port-80 process was
revived, and how the call ended. -/
structure CertBotOutcome where
  events : List Event
  postHookRuns : Nat
  port80Revived : Bool
  outcome : Outcome
deriving DecidableEq, Repr

/-- Model of `CertBot.run`, which is the plain sequence
`self._cert_pre_hook(); self._run(); self._cert_post_hook()` with no
`try`/`finally` around it. The pre-hook probes port 80 and records the
revival obligation; `_run` spawns certbot and may raise an uncaught OS
error (`issuanceRaises`), in which case `run` propagates the exception and
the post-hook never executes; if `_run` returns, the post-hook runs exactly
once: it revives port 80 if needed, then calls `sys.exit()` when the
rate-limit marker was seen, and otherwise enables the renewal timer. -/
def CertBot.run (port80InUse issuanceRaises rateLimited : Bool) : CertBotOutcome :=
  if issuanceRaises then
    { events := [.certPreHook, .probe 80 "tcp", .certIssuance]
      postHookRuns := 0
      port80Revived := false
      outcome := .exception }
  else
    { events := [.certPreHook, .probe 80 "tcp", .certIssuance, .certPostHook]
      postHookRuns := 1
      port80Revived := port80InUse
      outcome := if rateLimited then .fatalExit else .normal }

/-- Result of `Scaffold._validate_port`: no `-p` flag means auto-allocate;
a port below 49152 or one whose UDP bind probe fails terminates the
process. -/
inductive PortValidation where
  | autoAllocate
  | rangeError
  | inUseError
  | ok (port : Int)
deriving DecidableEq, Repr

/-- Model of `Scaffold._validate_port` together with the probe events it
performs: `None` signals auto-allocation; `port < 49152` exits before any
probe; a failing UDP bind probe exits; otherwise the port is returned. -/
def Scaffold._validate_port (port : Option Int) (inUse : Int → Bool) :
    List Event × PortValidation :=
  match port with
  | none => ([], .autoAllocate)
  | some p =>
    if p < 49152 then ([], .rangeError)
    else if inUse p then ([.probe p "udp"], .inUseError)
    else ([.probe p "udp"], .ok p)

/-- Model of `Scaffold._validate_domain` together with its network events:
resolve the domain (a `gaierror` is modelled by `resolved = none` and leads
to `sys.exit` without fetching the public IP); otherwise fetch the host's
public IP from ifconfig.me and exit unless it equals the resolved address.
On success the resolved server IP is returned. -/
def Scaffold._validate_domain (domain : String) (resolved : Option String)
    (myIp : String) : List Event × Option String :=
  match resolved with
  | none => ([.dnsResolve domain], none)
  | some server_ip =>
    if myIp = server_ip then ([.dnsResolve domain, .fetchPublicIp], some server_ip)
    else ([.dnsResolve domain, .fetchPublicIp], none)

/-- The environment one `install` run observes: the CLI arguments, the
socket-probe oracle, the DNS and public-IP answers, the certificate and
service state, the randomness drawn for the credential, and the shuffle
outcome for port allocation. `existingUser` is the credential persisted by
a previous install of an existing deployment; the install code path never
reads it. -/
structure World where
  requestedPort : Option Int
  domain : String
  portInUse : Int → Bool
  resolvedIp : Option String
  myIp : String
  fullchainExists : Bool
  port80InUse : Bool
  issuanceRaises : Bool
  rateLimited : Bool
  aliasAlreadySet : Bool
  shuffledPorts : List Int
  serviceActive : Bool
  uuidBytes : List Nat
  tokenBytes : List Nat
  existingUser : Option User

/-- Result of one `Scaffold.install` run: the side effects performed in
order, the terminal outcome, and the credential and server config persisted
by this run (none when the workflow aborted before building them). -/
structure InstallResult where
  events : List Event
  outcome : Outcome
  credential : Option User := none
  config : Option ServerConfig := none

/-- Model of `Scaffold.install`, following the source order: validate the
requested port (exiting on range or bind failure), validate the domain
(exiting on DNS failure or IP mismatch), run certbot unless the fullchain
file already exists (an uncaught issuance exception propagates; a
rate-limit failure exits from the post-hook), then create the workstation,
generate a fresh credential, append the alias, bind the requested port or
let the accessor allocate one, write the unit file, download the
executable, persist the server config built by `from_automation`, start the
service, and on an active status write the three client artifacts. -/
def Scaffold.install (w : World) : InstallResult :=
  let vp := Scaffold._validate_port w.requestedPort w.portInUse
  match vp.2 with
  | .rangeError => { events := vp.1, outcome := .fatalExit }
  | .inUseError => { events := vp.1, outcome := .fatalExit }
  | pv =>
    let vd := Scaffold._validate_domain w.domain w.resolvedIp w.myIp
    match vd.2 with
    | none => { events := vp.1 ++ vd.1, outcome := .fatalExit }
    | some server_ip =>
      let cb : List Event × Outcome :=
        if w.fullchainExists then ([], .normal)
        else ((CertBot.run w.port80InUse w.issuanceRaises w.rateLimited).events,
              (CertBot.run w.port80InUse w.issuanceRaises w.rateLimited).outcome)
      match cb.2 with
      | .exception => { events := vp.1 ++ vd.1 ++ cb.1, outcome := .exception }
      | .fatalExit => { events := vp.1 ++ vd.1 ++ cb.1, outcome := .fatalExit }
      | _ =>
        let user := User.gen w.uuidBytes w.tokenBytes
        let aliasEv : List Event := if w.aliasAlreadySet then [] else [.fileWrite "bashrc"]
        let st0 : ProjectState := {}
        let pstep : List Event × ProjectState :=
          match pv with
          | .ok p => ([], { st0 with _server_port := p })
          | _ =>
            ([.portAllocated (Project.server_port_get st0 w.shuffledPorts w.portInUse).1],
             (Project.server_port_get st0 w.shuffledPorts w.portInUse).2)
        let st1 := pstep.2
        let server_port := st1._server_port
        let _st2 := { st1 with _server_ip := server_ip }
        let sc := ServerConfig.from_automation [user] (Certificate.fullchain w.domain)
          (Certificate.privkey w.domain) server_port
        let baseEvents := vp.1 ++ vd.1 ++ cb.1 ++ [.makeDirs] ++ aliasEv ++ pstep.1 ++
          [.fileWrite "tuic.service", .download, .fileWrite "tuic",
           .fileWrite "server_config.json", .serviceStart]
        if w.serviceActive then
          { events := baseEvents ++
              [.fileWrite "nekoray_config.json", .fileWrite "meta_config.yaml",
               .fileWrite "singbox_config.json"]
            outcome := .completed
            credential := some user
            config := some sc }
        else
          { events := baseEvents, outcome := .startFailed
            credential := some user, config := some sc }

/-! Helper lemmas. -/

theorem hexDigit_isHex (n : Nat) : isHexChar (hexDigit n) = true := by
  have h : n % 16 < 16 := Nat.mod_lt _ (by norm_num)
  unfold hexDigit
  set m := n % 16 with hm
  interval_cases m <;> rfl

theorem hexDigit_version (b : Nat) : hexDigit ((b % 16 + 64) / 16) = '4' := by
  have h : (b % 16 + 64) / 16 = 4 := by omega
  rw [h]; rfl

theorem hexDigit_variant (b : Nat) :
    (hexDigit ((b % 64 + 128) / 16) == '8' || hexDigit ((b % 64 + 128) / 16) == '9' ||
     hexDigit ((b % 64 + 128) / 16) == 'a' || hexDigit ((b % 64 + 128) / 16) == 'b') = true := by
  have h : (b % 64 + 128) / 16 = 8 ∨ (b % 64 + 128) / 16 = 9 ∨
      (b % 64 + 128) / 16 = 10 ∨ (b % 64 + 128) / 16 = 11 := by omega
  rcases h with h | h | h | h <;> rw [h] <;> rfl

theorem uuidShaped_of16 (b0 b1 b2 b3 b4 b5 b6 b7 b8 b9 b10 b11 b12 b13 b14 b15 : Nat) :
    isUuidShaped (String.mk (uuid4Chars
      [b0, b1, b2, b3, b4, b5, b6, b7, b8, b9, b10, b11, b12, b13, b14, b15])) = true := by
  simp only [uuid4Chars, hexChars, byteHexChars, List.cons_append, List.nil_append,
    List.append_nil, isUuidShaped, List.all_cons, List.all_nil,
    hexDigit_isHex, Bool.and_true, Bool.true_and]
  simp [hexDigit_version, hexDigit_variant]

theorem uuidShaped_of_len16 (bs : List Nat) (h : bs.length = 16) :
    isUuidShaped (String.mk (uuid4Chars bs)) = true := by
  rcases bs with _ | ⟨b0, _ | ⟨b1, _ | ⟨b2, _ | ⟨b3, _ | ⟨b4, _ | ⟨b5, _ | ⟨b6, _ | ⟨b7,
    _ | ⟨b8, _ | ⟨b9, _ | ⟨b10, _ | ⟨b11, _ | ⟨b12, _ | ⟨b13, _ | ⟨b14, _ | ⟨b15,
    tl⟩⟩⟩⟩⟩⟩⟩⟩⟩⟩⟩⟩⟩⟩⟩⟩
  all_goals simp only [List.length_cons, List.length_nil] at h
  all_goals try omega
  cases tl with
  | nil => exact uuidShaped_of16 b0 b1 b2 b3 b4 b5 b6 b7 b8 b9 b10 b11 b12 b13 b14 b15
  | cons x xs => simp only [List.length_cons] at h; omega

theorem hexChars_length (bs : List Nat) : (hexChars bs).length = 2 * bs.length := by
  induction bs with
  | nil => rfl
  | cons b bs ih => simp [hexChars, byteHexChars, ih]; omega

theorem hexChars_isHex (bs : List Nat) : ∀ c ∈ hexChars bs, isHexChar c = true := by
  induction bs with
  | nil => intro c hc; cases hc
  | cons b bs ih =>
      intro c hc
      simp only [hexChars, byteHexChars, List.cons_append, List.nil_append,
        List.mem_cons] at hc
      rcases hc with rfl | rfl | hc
      · exact hexDigit_isHex _
      · exact hexDigit_isHex _
      · exact ih c hc

theorem mem_rangeList {p a : Int} {n : Nat} (h : p ∈ rangeList a n) :
    a ≤ p ∧ p < a + n := by
  induction n generalizing a with
  | zero => cases h
  | succ m ih =>
      rcases List.mem_cons.mp h with rfl | h2
      · constructor
        · exact le_refl p
        · have : (0 : Int) < (m : Int) + 1 := by positivity
          push_cast
          omega
      · have := ih h2
        push_cast at this ⊢
        omega

theorem bracket_head_ne_empty (x : String) : "[::]:" ++ x ≠ "" := by
  intro h
  have hl := congrArg String.length h
  simp [String.length_append] at hl
  exact absurd hl.1 (by decide)

theorem validate_port_events_shape (port : Option Int) (inUse : Int → Bool) :
    (Scaffold._validate_port port inUse).1 = [] ∨
    ∃ q, (Scaffold._validate_port port inUse).1 = [Event.probe q "udp"] := by
  cases port with
  | none => left; rfl
  | some p =>
      by_cases h : p < 49152
      · left; simp [Scaffold._validate_port, h]
      · by_cases h2 : inUse p <;>
          · right; exact ⟨p, by simp [Scaffold._validate_port, h, h2]⟩

theorem validate_domain_events_shape (d : String) (rs : Option String) (m : String) :
    (Scaffold._validate_domain d rs m).1 = [Event.dnsResolve d] ∨
    (Scaffold._validate_domain d rs m).1 = [Event.dnsResolve d, Event.fetchPublicIp] := by
  cases rs with
  | none => left; rfl
  | some ip =>
      by_cases h : m = ip <;> right <;> simp [Scaffold._validate_domain, h]

/-! Claim theorems. -/

/-- C10: every constructed `ServerConfig` (the dataclass constructor always
runs `__post_init__`, and `from_automation` in particular) has a non-empty
`server` — an empty value is replaced by `"[::]:443"` — and a non-empty
ALPN list — an empty or missing list is replaced by `["h3", "spdy/3.1"]`. -/
theorem claim_C10_server_config_invariants (c : ServerConfig) (users : List User)
    (fc pk : String) (port : Int) :
    (ServerConfig.post_init c).server ≠ "" ∧
    (ServerConfig.post_init c).alpn ≠ [] ∧
    (c.server = "" → (ServerConfig.post_init c).server = "[::]:443") ∧
    (c.alpn = [] → (ServerConfig.post_init c).alpn = ["h3", "spdy/3.1"]) ∧
    (ServerConfig.from_automation users fc pk port).server = "[::]:" ++ toString port ∧
    (ServerConfig.from_automation users fc pk port).alpn = ["h3", "spdy/3.1"] := by
  refine ⟨?_, ?_, ?_, ?_, ?_, ?_⟩
  · by_cases h : c.server = "" <;> simp [ServerConfig.post_init, h]
  · by_cases h : c.alpn = [] <;> simp [ServerConfig.post_init, h]
  · intro h; simp [ServerConfig.post_init, h]
  · intro h; simp [ServerConfig.post_init, h]
  · simp [ServerConfig.from_automation, ServerConfig.post_init,
      bracket_head_ne_empty (toString port)]
  · simp [ServerConfig.from_automation, ServerConfig.post_init]

/-- Witness for C10 at a concrete config with empty `server` and ALPN. -/
theorem claim_C10_server_config_invariants_witness :
    (ServerConfig.post_init
        { server := "", users := [("u", "pw")], certificate := "fc",
          private_key := "pk", alpn := [] }).server = "[::]:443" ∧
    (ServerConfig.post_init
        { server := "", users := [("u", "pw")], certificate := "fc",
          private_key := "pk", alpn := [] }).alpn = ["h3", "spdy/3.1"] ∧
    (ServerConfig.from_automation [⟨"u", "pw"⟩] "fc" "pk" 50000).server = "[::]:50000" ∧
    (ServerConfig.from_automation [⟨"u", "pw"⟩] "fc" "pk" 50000).alpn = ["h3", "spdy/3.1"] := by
  have h := claim_C10_server_config_invariants
    { server := "", users := [("u", "pw")], certificate := "fc",
      private_key := "pk", alpn := [] } [⟨"u", "pw"⟩] "fc" "pk" 50000
  exact ⟨h.2.2.1 rfl, h.2.2.2.1 rfl, h.2.2.2.2.1, h.2.2.2.2.2⟩

/-- Concrete server config for the C5 counterexample: built through
`__post_init__` with the 0-RTT flag disabled. -/
def c5Server : ServerConfig :=
  ServerConfig.post_init
    { server := "[::]:50000", users := [("u", "pw")], certificate := "fc",
      private_key := "pk", alpn := ["h3"], zero_rtt_handshake := false }

/-- C5 counterexample: `copy_from_server` does not copy the 0-RTT handshake
flag; a server config with `zero_rtt_handshake = False` yields a client
relay with `zero_rtt_handshake = True` (the dataclass default). -/
theorem claim_C5_counterexample :
    c5Server.zero_rtt_handshake = false ∧
    (ClientRelay.copy_from_server "relay.example.com" ⟨"u", "pw"⟩ c5Server
        50000).zero_rtt_handshake = true ∧
    (ClientRelay.copy_from_server "relay.example.com" ⟨"u", "pw"⟩ c5Server
        50000).zero_rtt_handshake ≠ c5Server.zero_rtt_handshake := by
  refine ⟨rfl, rfl, by decide⟩

/-- C5 amended: `ClientRelay.copy_from_server` copies ALPN, congestion
control, the send/receive windows and the GC interval and lifetime verbatim
from the server config (given the constructor invariant that the server's
ALPN list is non-empty), and takes the credential from the user; but the
0-RTT handshake flag is NOT copied — the derived relay always carries the
dataclass default `true` regardless of the server value. -/
theorem claim_C5_copy_from_server (domain : String) (user : User) (sc : ServerConfig)
    (port : Int) (halpn : sc.alpn ≠ []) :
    (ClientRelay.copy_from_server domain user sc port).server
      = domain ++ ":" ++ toString port ∧
    (ClientRelay.copy_from_server domain user sc port).uuid = user.username ∧
    (ClientRelay.copy_from_server domain user sc port).password = user.password ∧
    (ClientRelay.copy_from_server domain user sc port).alpn = sc.alpn ∧
    (ClientRelay.copy_from_server domain user sc port).congestion_control
      = sc.congestion_control ∧
    (ClientRelay.copy_from_server domain user sc port).send_window = sc.send_window ∧
    (ClientRelay.copy_from_server domain user sc port).receive_window = sc.receive_window ∧
    (ClientRelay.copy_from_server domain user sc port).gc_interval = sc.gc_interval ∧
    (ClientRelay.copy_from_server domain user sc port).gc_lifetime = sc.gc_lifetime ∧
    (ClientRelay.copy_from_server domain user sc port).zero_rtt_handshake = true := by
  simp [ClientRelay.copy_from_server, ClientRelay.post_init, halpn]

/-- Witness for C5 amended at a concrete server config. -/
theorem claim_C5_copy_from_server_witness :
    (ServerConfig.from_automation [⟨"u", "pw"⟩] "fc" "pk" 50000).alpn ≠ [] ∧
    (ClientRelay.copy_from_server "relay.example.com" ⟨"u", "pw"⟩
        (ServerConfig.from_automation [⟨"u", "pw"⟩] "fc" "pk" 50000) 50000).alpn
      = (ServerConfig.from_automation [⟨"u", "pw"⟩] "fc" "pk" 50000).alpn ∧
    (ClientRelay.copy_from_server "relay.example.com" ⟨"u", "pw"⟩
        (ServerConfig.from_automation [⟨"u", "pw"⟩] "fc" "pk" 50000) 50000).zero_rtt_handshake
      = true := by
  have h := claim_C5_copy_from_server "relay.example.com" ⟨"u", "pw"⟩
    (ServerConfig.from_automation [⟨"u", "pw"⟩] "fc" "pk" 50000) 50000 (by decide)
  exact ⟨by decide, h.2.2.2.1, h.2.2.2.2.2.2.2.2.2⟩

/-- Concrete client relay for the C6 counterexample. -/
def c6Relay : ClientRelay :=
  { server := "relay.example.com:50000", uuid := "u", password := "pw",
    alpn := ["h3", "spdy/3.1"] }

/-- C6 counterexample: `NekoRayConfig.from_server` is not pure — it mutates
the `ClientRelay` it is given (here it overwrites the `ip` field with the
supplied server IP), so the relay after the call differs from the one that
was passed in. -/
theorem claim_C6_counterexample :
    (NekoRayConfig.from_server c6Relay "relay.example.com" 50000
        (some "203.0.113.7")).2 ≠ c6Relay ∧
    (NekoRayConfig.from_server c6Relay "relay.example.com" 50000
        (some "203.0.113.7")).2.ip = some "203.0.113.7" ∧
    c6Relay.ip = none := by
  refine ⟨by decide, rfl, rfl⟩

/-- C6 amended: `ClashMetaConfig.from_server` and `SingBoxConfig.from_server`
only read the relay, but `NekoRayConfig.from_server` mutates it, rewriting
`relay.server` to `addr:port` and overwriting `relay.ip` whenever a server
IP is supplied; every other field is left unchanged (so the fields the
later exporters read are unaffected), and the artifact embeds the mutated
relay. -/
theorem claim_C6_nekoray_mutation (relay : ClientRelay) (addr : String) (port : Int)
    (sip : Option String) (ip : String) :
    (NekoRayConfig.from_server relay addr port sip).2.uuid = relay.uuid ∧
    (NekoRayConfig.from_server relay addr port sip).2.password = relay.password ∧
    (NekoRayConfig.from_server relay addr port sip).2.certificates = relay.certificates ∧
    (NekoRayConfig.from_server relay addr port sip).2.udp_relay_mode = relay.udp_relay_mode ∧
    (NekoRayConfig.from_server relay addr port sip).2.congestion_control
      = relay.congestion_control ∧
    (NekoRayConfig.from_server relay addr port sip).2.alpn = relay.alpn ∧
    (NekoRayConfig.from_server relay addr port sip).2.zero_rtt_handshake
      = relay.zero_rtt_handshake ∧
    (NekoRayConfig.from_server relay addr port sip).2.send_window = relay.send_window ∧
    (NekoRayConfig.from_server relay addr port sip).2.receive_window = relay.receive_window ∧
    (NekoRayConfig.from_server relay addr port sip).2.gc_interval = relay.gc_interval ∧
    (NekoRayConfig.from_server relay addr port sip).2.gc_lifetime = relay.gc_lifetime ∧
    (NekoRayConfig.from_server relay addr port sip).2.server
      = addr ++ ":" ++ toString port ∧
    (NekoRayConfig.from_server relay addr port (some ip)).2.ip = some ip ∧
    (NekoRayConfig.from_server relay addr port none).2.ip = relay.ip ∧
    (NekoRayConfig.from_server relay addr port sip).1.relay
      = (NekoRayConfig.from_server relay addr port sip).2 := by
  cases sip <;> simp [NekoRayConfig.from_server]

/-- C2 counterexample: with an uncaught exception raised by the issuance
step (`issuanceRaises = true`), `CertBot.run` performs the issuance attempt
but the post-hook body never executes — there is no `try`/`finally` in
`run`, so "exactly once on every exit path" fails. -/
theorem claim_C2_counterexample :
    (CertBot.run false true false).events
      = [.certPreHook, .probe 80 "tcp", .certIssuance] ∧
    (CertBot.run false true false).postHookRuns = 0 ∧
    (CertBot.run false true false).outcome = .exception := by
  refine ⟨rfl, rfl, rfl⟩

/-- C2 amended: the post-hook executes exactly once per issuance attempt
whenever the issuance step returns — both on success and on a rate-limited
failure, in which case the port-80 revival still happens and the run then
terminates fatally — but when the issuance step raises, `CertBot.run`
propagates the exception and the post-hook executes zero times. -/
theorem claim_C2_post_hook (p80 raises rl : Bool) :
    (raises = false →
      (CertBot.run p80 raises rl).postHookRuns = 1 ∧
      (CertBot.run p80 raises rl).port80Revived = p80 ∧
      (rl = true → (CertBot.run p80 raises rl).outcome = .fatalExit) ∧
      (rl = false → (CertBot.run p80 raises rl).outcome = .normal)) ∧
    (raises = true →
      (CertBot.run p80 raises rl).postHookRuns = 0 ∧
      (CertBot.run p80 raises rl).outcome = .exception) := by
  cases raises <;> cases rl <;> simp [CertBot.run]

/-- Witness for C2 amended on the non-raising, rate-limited path. -/
theorem claim_C2_post_hook_witness :
    (CertBot.run true false true).postHookRuns = 1 ∧
    (CertBot.run true false true).port80Revived = true ∧
    (CertBot.run true false true).outcome = .fatalExit := by
  have h := claim_C2_post_hook true false true
  exact ⟨(h.1 rfl).1, (h.1 rfl).2.1, (h.1 rfl).2.2.1 rfl⟩

/-- C3 counterexample: when every candidate port's bind probe fails, the
`server_port` accessor does not fail fatally with any `PortExhaustedError`
— no such error exists in the code — it returns normally with the sentinel
`-1`, which is not a port in `[49152, 59151)` passing the probe. -/
theorem claim_C3_counterexample :
    Project.server_port_get {} candidatePorts (fun _ => true) = (-1, {}) ∧
    ¬(49152 ≤ (-1 : Int) ∧ (-1 : Int) < 59151) := by
  constructor
  · have hf : candidatePorts.find? (fun p : Int => false) = none := by
      rw [List.find?_eq_none]
      intro x hx
      simp
    simp [Project.server_port_get, hf]
  · decide

/-- C3 amended: with the cached port unset, the accessor either caches and
returns the first shuffled candidate whose UDP bind probe reports it free —
a port in `[49152, 59152)`, the actual `range(49152, 59152)` pool, which
includes 59151 — or, when every candidate is in use, returns `-1` and
leaves the state unchanged; no error is raised in either case. -/
theorem claim_C3_allocation (randPorts : List Int) (hperm : randPorts.Perm candidatePorts)
    (st : ProjectState) (hst : st._server_port = -1) (inUse : Int → Bool) :
    ((Project.server_port_get st randPorts inUse).1 ≠ -1 →
      49152 ≤ (Project.server_port_get st randPorts inUse).1 ∧
      (Project.server_port_get st randPorts inUse).1 < 59152 ∧
      inUse (Project.server_port_get st randPorts inUse).1 = false ∧
      (Project.server_port_get st randPorts inUse).2._server_port
        = (Project.server_port_get st randPorts inUse).1) ∧
    ((∀ q ∈ randPorts, inUse q = true) →
      (Project.server_port_get st randPorts inUse).1 = -1 ∧
      (Project.server_port_get st randPorts inUse).2 = st) := by
  have hneg : st._server_port < 0 := by omega
  cases hf : randPorts.find? (fun p => !inUse p) with
  | none =>
      have hget : Project.server_port_get st randPorts inUse = (st._server_port, st) := by
        simp [Project.server_port_get, if_pos hneg, hf]
      rw [hget, hst]
      exact ⟨fun hr => absurd rfl hr, fun _ => ⟨rfl, rfl⟩⟩
  | some p =>
      have hget : Project.server_port_get st randPorts inUse
          = (p, { st with _server_port := p }) := by
        simp [Project.server_port_get, if_pos hneg, hf]
      have hp0 := List.find?_some hf
      have hpu : inUse p = false := by simpa using hp0
      have hmem : p ∈ randPorts := List.mem_of_find?_eq_some hf
      have hbounds := mem_rangeList (hperm.subset hmem)
      rw [hget]
      constructor
      · intro _
        exact ⟨hbounds.1, by simpa using hbounds.2, hpu, rfl⟩
      · intro hall
        have := hall p hmem
        rw [this] at hpu
        cases hpu

/-- Witness for C3 amended: the identity shuffle with every probe free
allocates the first candidate, 49152. -/
theorem claim_C3_allocation_witness :
    candidatePorts.Perm candidatePorts ∧
    (({} : ProjectState)._server_port = -1) ∧
    ((Project.server_port_get {} candidatePorts (fun _ => false)).1 ≠ -1 →
      49152 ≤ (Project.server_port_get {} candidatePorts (fun _ => false)).1 ∧
      (Project.server_port_get {} candidatePorts (fun _ => false)).1 < 59152 ∧
      (fun _ => false) (Project.server_port_get {} candidatePorts (fun _ => false)).1 = false ∧
      (Project.server_port_get {} candidatePorts (fun _ => false)).2._server_port
        = (Project.server_port_get {} candidatePorts (fun _ => false)).1) := by
  refine ⟨List.Perm.refl _, rfl, ?_⟩
  exact (claim_C3_allocation candidatePorts (List.Perm.refl _) {} rfl (fun _ => false)).1

/-- C8: a requested port above 49151 whose UDP bind probe succeeds is
returned unchanged; a port at or below 49151 is rejected with the
range-error exit before any probe; a port whose probe fails is rejected
with the in-use exit; and in both failure cases the install workflow
terminates before any network call (no DNS resolution, no public-IP fetch,
no certificate issuance). -/
theorem claim_C8_validate_port (p : Int) (inUse : Int → Bool) (w : World) :
    (49151 < p → inUse p = false →
      (Scaffold._validate_port (some p) inUse).2 = .ok p) ∧
    (p ≤ 49151 → (Scaffold._validate_port (some p) inUse).2 = .rangeError) ∧
    (49151 < p → inUse p = true →
      (Scaffold._validate_port (some p) inUse).2 = .inUseError) ∧
    (((Scaffold._validate_port w.requestedPort w.portInUse).2 = .rangeError ∨
      (Scaffold._validate_port w.requestedPort w.portInUse).2 = .inUseError) →
      (Scaffold.install w).outcome = .fatalExit ∧
      Event.dnsResolve w.domain ∉ (Scaffold.install w).events ∧
      Event.fetchPublicIp ∉ (Scaffold.install w).events ∧
      Event.certIssuance ∉ (Scaffold.install w).events) := by
  refine ⟨?_, ?_, ?_, ?_⟩
  · intro h1 h2
    simp [Scaffold._validate_port, show ¬ p < 49152 by omega, h2]
  · intro h1
    simp [Scaffold._validate_port, show p < 49152 by omega]
  · intro h1 h2
    simp [Scaffold._validate_port, show ¬ p < 49152 by omega, h2]
  · intro hv
    rcases validate_port_events_shape w.requestedPort w.portInUse with h1 | ⟨q, h1⟩ <;>
      rcases hv with hv | hv <;>
      simp [Scaffold.install, hv, h1]

/-- Witness for C8 at port 80 (range error) and port 50000 (free). -/
theorem claim_C8_validate_port_witness :
    ((49151 : Int) < 50000 → (fun _ => false) (50000 : Int) = false →
      (Scaffold._validate_port (some 50000) (fun _ => false)).2 = .ok 50000) ∧
    ((80 : Int) ≤ 49151 →
      (Scaffold._validate_port (some 80) (fun _ => false)).2 = .rangeError) := by
  exact ⟨(claim_C8_validate_port 50000 (fun _ => false)
      { requestedPort := none, domain := "d", portInUse := fun _ => false,
        resolvedIp := none, myIp := "", fullchainExists := false, port80InUse := false,
        issuanceRaises := false, rateLimited := false, aliasAlreadySet := false,
        shuffledPorts := [], serviceActive := false, uuidBytes := [], tokenBytes := [],
        existingUser := none }).1,
    (claim_C8_validate_port 80 (fun _ => false)
      { requestedPort := none, domain := "d", portInUse := fun _ => false,
        resolvedIp := none, myIp := "", fullchainExists := false, port80InUse := false,
        issuanceRaises := false, rateLimited := false, aliasAlreadySet := false,
        shuffledPorts := [], serviceActive := false, uuidBytes := [], tokenBytes := [],
        existingUser := none }).2.1⟩

/-- C7: when the domain resolves to an IP different from the host's
observed public IP, install terminates fatally before performing any side
effect: no certificate issuance, no port allocation, no workstation
creation, and no file write appear in the trace, and neither a credential
nor a server config is persisted. -/
theorem claim_C7_ip_mismatch (w : World) (ip : String)
    (hres : w.resolvedIp = some ip) (hne : w.myIp ≠ ip) :
    (Scaffold.install w).outcome = .fatalExit ∧
    (Scaffold.install w).credential = none ∧
    (Scaffold.install w).config = none ∧
    Event.certIssuance ∉ (Scaffold.install w).events ∧
    (∀ q, Event.portAllocated q ∉ (Scaffold.install w).events) ∧
    (∀ s, Event.fileWrite s ∉ (Scaffold.install w).events) ∧
    Event.makeDirs ∉ (Scaffold.install w).events := by
  have hvd : Scaffold._validate_domain w.domain w.resolvedIp w.myIp
      = ([.dnsResolve w.domain, .fetchPublicIp], none) := by
    simp [Scaffold._validate_domain, hres, hne]
  rcases validate_port_events_shape w.requestedPort w.portInUse with h1 | ⟨q, h1⟩ <;>
    rcases hvp : (Scaffold._validate_port w.requestedPort w.portInUse).2
      with _ | _ | _ | p <;>
    simp [Scaffold.install, hvp, hvd, h1]

/-- Witness for C7 at a concrete world whose resolved IP differs from the
observed public IP. -/
theorem claim_C7_ip_mismatch_witness :
    ({ requestedPort := some 50000, domain := "relay.example.com",
       portInUse := fun _ => false, resolvedIp := some "203.0.113.7",
       myIp := "198.51.100.9", fullchainExists := false, port80InUse := false,
       issuanceRaises := false, rateLimited := false, aliasAlreadySet := false,
       shuffledPorts := [], serviceActive := false, uuidBytes := [],
       tokenBytes := [], existingUser := none } : World).resolvedIp
      = some "203.0.113.7" ∧
    ("198.51.100.9" : String) ≠ "203.0.113.7" ∧
    (Scaffold.install
      { requestedPort := some 50000, domain := "relay.example.com",
        portInUse := fun _ => false, resolvedIp := some "203.0.113.7",
        myIp := "198.51.100.9", fullchainExists := false, port80InUse := false,
        issuanceRaises := false, rateLimited := false, aliasAlreadySet := false,
        shuffledPorts := [], serviceActive := false, uuidBytes := [],
        tokenBytes := [], existingUser := none }).outcome = .fatalExit := by
  refine ⟨rfl, by decide, ?_⟩
  exact (claim_C7_ip_mismatch _ "203.0.113.7" rfl (by decide)).1

/-- C9: whenever the fullchain certificate file for the domain already
exists, re-running install performs no certbot step at all — neither the
pre-hook, nor the issuance invocation, nor the post-hook appear in the
trace, on any path through the workflow. -/
theorem claim_C9_issuance_skipped (w : World) (h : w.fullchainExists = true) :
    Event.certIssuance ∉ (Scaffold.install w).events ∧
    Event.certPreHook ∉ (Scaffold.install w).events ∧
    Event.certPostHook ∉ (Scaffold.install w).events := by
  rcases validate_port_events_shape w.requestedPort w.portInUse with h1 | ⟨q, h1⟩ <;>
    rcases validate_domain_events_shape w.domain w.resolvedIp w.myIp with h2 | h2 <;>
    rcases hvp : (Scaffold._validate_port w.requestedPort w.portInUse).2
      with _ | _ | _ | p <;>
    rcases hvd : (Scaffold._validate_domain w.domain w.resolvedIp w.myIp).2
      with _ | sip <;>
    by_cases ha : w.aliasAlreadySet <;>
    by_cases hs : w.serviceActive <;>
    simp [Scaffold.install, h, h1, h2, hvp, hvd, ha, hs]

/-- Witness for C9: with the bundle present, the install trace of a
concrete world contains no issuance invocation. -/
theorem claim_C9_issuance_skipped_witness :
    ({ requestedPort := some 50000, domain := "relay.example.com",
       portInUse := fun _ => false, resolvedIp := some "203.0.113.7",
       myIp := "203.0.113.7", fullchainExists := true, port80InUse := false,
       issuanceRaises := false, rateLimited := false, aliasAlreadySet := true,
       shuffledPorts := [], serviceActive := true,
       uuidBytes := List.replicate 16 0, tokenBytes := List.replicate 32 0,
       existingUser := none } : World).fullchainExists = true ∧
    Event.certIssuance ∉ (Scaffold.install
      { requestedPort := some 50000, domain := "relay.example.com",
        portInUse := fun _ => false, resolvedIp := some "203.0.113.7",
        myIp := "203.0.113.7", fullchainExists := true, port80InUse := false,
        issuanceRaises := false, rateLimited := false, aliasAlreadySet := true,
        shuffledPorts := [], serviceActive := true,
        uuidBytes := List.replicate 16 0, tokenBytes := List.replicate 32 0,
        existingUser := none }).events := by
  refine ⟨rfl, ?_⟩
  exact (claim_C9_issuance_skipped _ rfl).1

/-- Concrete world for the C4 counterexample: an existing deployment (a
previously persisted credential) and a re-run of install with zeroed
randomness. -/
def c4World : World :=
  { requestedPort := some 50000, domain := "relay.example.com",
    portInUse := fun _ => false, resolvedIp := some "203.0.113.7",
    myIp := "203.0.113.7", fullchainExists := true, port80InUse := false,
    issuanceRaises := false, rateLimited := false, aliasAlreadySet := true,
    shuffledPorts := [], serviceActive := true,
    uuidBytes := List.replicate 16 0, tokenBytes := List.replicate 32 0,
    existingUser := some ⟨"11111111-1111-4111-8111-111111111111", "1111111111111111"⟩ }

/-- C4 counterexample: re-running install on an existing deployment does
regenerate the credential — `install` calls `User.gen()` unconditionally
and persists the fresh credential, which differs from the previously
persisted one; nothing in the code reads or preserves the old credential. -/
theorem claim_C4_counterexample :
    c4World.existingUser
      = some ⟨"11111111-1111-4111-8111-111111111111", "1111111111111111"⟩ ∧
    (Scaffold.install c4World).credential
      = some ⟨"00000000-0000-4000-8000-000000000000", "0000000000000000"⟩ ∧
    (Scaffold.install c4World).credential ≠ c4World.existingUser := by
  refine ⟨rfl, by decide, by decide⟩

/-- C4 amended: the credential generated at install has a UUID-shaped
username and a password of exactly 16 lowercase hex characters, and exactly
one such credential is created per install run and persisted in the server
config's user map; but install generates a fresh credential on every run —
including re-runs over an existing deployment — rather than preserving the
existing one. -/
theorem claim_C4_credential (w : World) (cfg : ServerConfig)
    (h16 : w.uuidBytes.length = 16) (h32 : w.tokenBytes.length = 32)
    (hcfg : (Scaffold.install w).config = some cfg) :
    isUuidShaped (User.gen w.uuidBytes w.tokenBytes).username = true ∧
    (User.gen w.uuidBytes w.tokenBytes).password.length = 16 ∧
    (∀ c ∈ (User.gen w.uuidBytes w.tokenBytes).password.data, isHexChar c = true) ∧
    cfg.users = [((User.gen w.uuidBytes w.tokenBytes).username,
                  (User.gen w.uuidBytes w.tokenBytes).password)] ∧
    (Scaffold.install w).credential = some (User.gen w.uuidBytes w.tokenBytes) := by
  have key : cfg.users = [((User.gen w.uuidBytes w.tokenBytes).username,
      (User.gen w.uuidBytes w.tokenBytes).password)] ∧
      (Scaffold.install w).credential = some (User.gen w.uuidBytes w.tokenBytes) := by
    rcases hvp : (Scaffold._validate_port w.requestedPort w.portInUse).2
      with _ | _ | _ | p <;>
    rcases hvd : (Scaffold._validate_domain w.domain w.resolvedIp w.myIp).2
      with _ | sip <;>
    by_cases hf : w.fullchainExists <;>
    by_cases hr : w.issuanceRaises <;>
    by_cases hl : w.rateLimited <;>
    by_cases hs : w.serviceActive <;>
    simp [Scaffold.install, CertBot.run, hvp, hvd, hf, hr, hl, hs] at hcfg ⊢ <;>
    rw [← hcfg] <;>
    exact rfl
  refine ⟨uuidShaped_of_len16 _ h16, ?_, ?_, key.1, key.2⟩
  · simp [User.gen, String.length, List.length_take, hexChars_length, h32]
  · intro c hc
    simp only [User.gen] at hc
    exact hexChars_isHex _ c (List.take_subset _ _ hc)

/-- Witness for C4 amended at the concrete world of scenario 1. -/
theorem claim_C4_credential_witness :
    (c4World.uuidBytes.length = 16) ∧ (c4World.tokenBytes.length = 32) ∧
    (Scaffold.install c4World).config
      = some (ServerConfig.from_automation
          [⟨"00000000-0000-4000-8000-000000000000", "0000000000000000"⟩]
          (Certificate.fullchain "relay.example.com")
          (Certificate.privkey "relay.example.com") 50000) ∧
    isUuidShaped (User.gen c4World.uuidBytes c4World.tokenBytes).username = true ∧
    (User.gen c4World.uuidBytes c4World.tokenBytes).password.length = 16 := by
  have hc : (Scaffold.install c4World).config
      = some (ServerConfig.from_automation
          [⟨"00000000-0000-4000-8000-000000000000", "0000000000000000"⟩]
          (Certificate.fullchain "relay.example.com")
          (Certificate.privkey "relay.example.com") 50000) := by decide
  have h := claim_C4_credential c4World _ (by decide) (by decide) hc
  exact ⟨by decide, by decide, hc, h.1, h.2.1⟩

/-- C1: exporting one canonical model through `gen_clients` yields three
artifacts whose shared fields — credential, server host, port, congestion
control and ALPN — are identical across all three, and match the
originating server config: the credential pair is the one in its user map,
congestion control and ALPN are its values, and the exported port is the
one its `server` field listens on. The hypotheses record how install wires
`gen_clients`: the project's cached port is the one the server config was
built from, and the config carries the generated user and the post-init
ALPN invariant. -/
theorem claim_C1_exporters (st : ProjectState) (randPorts : List Int) (inUse : Int → Bool)
    (addr : String) (user : User) (sc : ServerConfig) (p : Int)
    (hport : st._server_port = p) (hp : 0 ≤ p) (halpn : sc.alpn ≠ [])
    (hserver : sc.server = "[::]:" ++ toString p)
    (husers : sc.users = [(user.username, user.password)]) :
    (Template.gen_clients st randPorts inUse addr user sc).1.nekoray.sharedView
      = { server_peer := addr ++ ":" ++ toString p, uuid := user.username,
          password := user.password, congestion_control := sc.congestion_control,
          alpn := sc.alpn } ∧
    (Template.gen_clients st randPorts inUse addr user sc).1.meta.sharedView
      = (Template.gen_clients st randPorts inUse addr user sc).1.nekoray.sharedView ∧
    (Template.gen_clients st randPorts inUse addr user sc).1.singbox.sharedView
      = (Template.gen_clients st randPorts inUse addr user sc).1.nekoray.sharedView ∧
    ((Template.gen_clients st randPorts inUse addr user sc).1.nekoray.sharedView.uuid,
     (Template.gen_clients st randPorts inUse addr user sc).1.nekoray.sharedView.password)
        ∈ sc.users ∧
    sc.server = "[::]:" ++ toString p := by
  have hacc : Project.server_port_get st randPorts inUse = (p, st) := by
    simp [Project.server_port_get, hport, not_lt.mpr hp]
  refine ⟨?_, ?_, ?_, ?_, hserver⟩ <;>
    simp [Template.gen_clients, hacc, ClientRelay.copy_from_server, ClientRelay.post_init,
      halpn, NekoRayConfig.from_server, ClashMetaConfig.from_server,
      SingBoxConfig.from_server, NekoRayConfig.sharedView, ClashMetaConfig.sharedView,
      SingBoxConfig.sharedView, husers]

/-- Witness for C1 at scenario 1's concrete model. -/
theorem claim_C1_exporters_witness :
    (({ _server_ip := "203.0.113.7", _server_port := 50000 } : ProjectState)._server_port
      = (50000 : Int)) ∧
    ((0 : Int) ≤ 50000) ∧
    ((ServerConfig.from_automation [⟨"u", "pw"⟩] "fc" "pk" 50000).alpn ≠ []) ∧
    ((ServerConfig.from_automation [⟨"u", "pw"⟩] "fc" "pk" 50000).server
      = "[::]:" ++ toString (50000 : Int)) ∧
    ((ServerConfig.from_automation [⟨"u", "pw"⟩] "fc" "pk" 50000).users
      = [("u", "pw")]) ∧
    (Template.gen_clients { _server_ip := "203.0.113.7", _server_port := 50000 } []
        (fun _ => false) "relay.example.com" ⟨"u", "pw"⟩
        (ServerConfig.from_automation [⟨"u", "pw"⟩] "fc" "pk" 50000)).1.nekoray.sharedView
      = { server_peer := "relay.example.com" ++ ":" ++ toString (50000 : Int),
          uuid := "u", password := "pw",
          congestion_control :=
            (ServerConfig.from_automation [⟨"u", "pw"⟩] "fc" "pk" 50000).congestion_control,
          alpn := (ServerConfig.from_automation [⟨"u", "pw"⟩] "fc" "pk" 50000).alpn } ∧
    (Template.gen_clients { _server_ip := "203.0.113.7", _server_port := 50000 } []
        (fun _ => false) "relay.example.com" ⟨"u", "pw"⟩
        (ServerConfig.from_automation [⟨"u", "pw"⟩] "fc" "pk" 50000)).1.meta.sharedView
      = (Template.gen_clients { _server_ip := "203.0.113.7", _server_port := 50000 } []
          (fun _ => false) "relay.example.com" ⟨"u", "pw"⟩
          (ServerConfig.from_automation [⟨"u", "pw"⟩] "fc" "pk" 50000)).1.nekoray.sharedView ∧
    (Template.gen_clients { _server_ip := "203.0.113.7", _server_port := 50000 } []
        (fun _ => false) "relay.example.com" ⟨"u", "pw"⟩
        (ServerConfig.from_automation [⟨"u", "pw"⟩] "fc" "pk" 50000)).1.singbox.sharedView
      = (Template.gen_clients { _server_ip := "203.0.113.7", _server_port := 50000 } []
          (fun _ => false) "relay.example.com" ⟨"u", "pw"⟩
          (ServerConfig.from_automation [⟨"u", "pw"⟩] "fc" "pk" 50000)).1.nekoray.sharedView := by
  have h := claim_C1_exporters { _server_ip := "203.0.113.7", _server_port := 50000 } []
    (fun _ => false) "relay.example.com" ⟨"u", "pw"⟩
    (ServerConfig.from_automation [⟨"u", "pw"⟩] "fc" "pk" 50000) 50000
    rfl (by decide) (by decide) (by decide) (by decide)
  exact ⟨rfl, by decide, by decide, by decide, by decide, h.1, h.2.1, h.2.2.1⟩

end Tunic
